import Mathlib

/-!
Verification of the bibber molecular-dynamics engine.

Shallow embedding of the Rust sources (src/vec3.rs, src/time.rs,
src/universe.rs, src/recipe/mod.rs) into Lean 4. Rust f64 values are
modelled as real numbers; Rust usize counters as natural numbers; the
in-place mutation loops of Universe::step are modelled as pure functions
over the particle list, one per stage, composed in the order the source
runs them. Division follows Lean's real-number convention (x / 0 = 0);
wherever a theorem depends on a division the relevant denominator is
shown to be nonzero or is displayed explicitly in the statement.
-/

set_option maxHeartbeats 1000000

namespace Bibber

/-- Three-component vector, from src/vec3.rs (components are f64, modelled as ℝ). -/
structure Vec3 where
  x : ℝ
  y : ℝ
  z : ℝ

namespace Vec3

/-- Vec3::zero from src/vec3.rs. -/
def zero : Vec3 := ⟨0, 0, 0⟩

/-- Vec3::one from src/vec3.rs. -/
def one : Vec3 := ⟨1, 1, 1⟩

/-- Vec3::norm from src/vec3.rs: sqrt(x^2 + y^2 + z^2). -/
noncomputable def norm (v : Vec3) : ℝ := Real.sqrt (v.x ^ 2 + v.y ^ 2 + v.z ^ 2)

end Vec3

/-- Component-wise addition (impl Add for Vec3). -/
instance : Add Vec3 := ⟨fun a b => ⟨a.x + b.x, a.y + b.y, a.z + b.z⟩⟩

/-- Component-wise subtraction (impl Sub for Vec3). -/
instance : Sub Vec3 := ⟨fun a b => ⟨a.x - b.x, a.y - b.y, a.z - b.z⟩⟩

/-- Component-wise multiplication (impl Mul for Vec3). -/
instance : Mul Vec3 := ⟨fun a b => ⟨a.x * b.x, a.y * b.y, a.z * b.z⟩⟩

/-- Component-wise negation (impl Neg for Vec3). -/
instance : Neg Vec3 := ⟨fun a => ⟨-a.x, -a.y, -a.z⟩⟩

/-- Scalar broadcast multiplication (impl Mul<f64> for Vec3). -/
instance : HMul Vec3 ℝ Vec3 := ⟨fun v s => ⟨v.x * s, v.y * s, v.z * s⟩⟩

/-- Scalar broadcast division (impl Div<f64> for Vec3). -/
noncomputable instance : HDiv Vec3 ℝ Vec3 := ⟨fun v s => ⟨v.x / s, v.y / s, v.z / s⟩⟩

/-- Unit-safe simulation time, from src/time.rs; stored internally as seconds (f64 as ℝ). -/
structure Time where
  seconds : ℝ

namespace Time

/-- Time::zero from src/time.rs. -/
def zero : Time := ⟨0⟩

/-- Time::from_seconds from src/time.rs. -/
def from_seconds (s : ℝ) : Time := ⟨s⟩

/-- Time::from_milliseconds from src/time.rs: millis / 1e3. -/
noncomputable def from_milliseconds (millis : ℝ) : Time := from_seconds (millis / 1e3)

/-- Time::from_microseconds from src/time.rs: micros / 1e6. -/
noncomputable def from_microseconds (micros : ℝ) : Time := from_seconds (micros / 1e6)

/-- Time::from_nanoseconds from src/time.rs: nanos / 1e9. -/
noncomputable def from_nanoseconds (nanos : ℝ) : Time := from_seconds (nanos / 1e9)

/-- Time::from_femtoseconds from src/time.rs: femtos / 1e12 (sic, as in the source). -/
noncomputable def from_femtoseconds (femtos : ℝ) : Time := from_seconds (femtos / 1e12)

/-- Time::from_picoseconds from src/time.rs: picos / 1e15 (sic, as in the source). -/
noncomputable def from_picoseconds (picos : ℝ) : Time := from_seconds (picos / 1e15)

/-- Time::milliseconds accessor from src/time.rs. -/
noncomputable def milliseconds (t : Time) : ℝ := t.seconds * 1e3

/-- Time::microseconds accessor from src/time.rs. -/
noncomputable def microseconds (t : Time) : ℝ := t.seconds * 1e6

/-- Time::nanoseconds accessor from src/time.rs. -/
noncomputable def nanoseconds (t : Time) : ℝ := t.seconds * 1e9

/-- Time::femtoseconds accessor from src/time.rs: seconds * 1e12 (sic, as in the source). -/
noncomputable def femtoseconds (t : Time) : ℝ := t.seconds * 1e12

/-- Time::picoseconds accessor from src/time.rs: seconds * 1e15 (sic, as in the source). -/
noncomputable def picoseconds (t : Time) : ℝ := t.seconds * 1e15

end Time

/-- Addition of times (impl Add for Time). -/
instance : Add Time := ⟨fun a b => Time.from_seconds (a.seconds + b.seconds)⟩

/-- Multiplication of a vector by a time on the basis of seconds (impl Mul<Time> for Vec3). -/
instance : HMul Vec3 Time Vec3 := ⟨fun v t => v * t.seconds⟩

/-- Particle from src/universe.rs: position, velocity, acceleration, mass. -/
structure Particle where
  pos : Vec3
  vel : Vec3
  acc : Vec3
  mass : ℝ

/-- Universe from src/universe.rs. -/
structure Universe where
  time : Time
  iteration : ℕ
  dt : Time
  boundary : Vec3
  temperature : ℝ
  particles : List Particle

/-- The Boltzmann constant from src/universe.rs. -/
def BOLTZMANN : ℝ := 1.380649e-23

/-- The 27 periodic image offsets from src/universe.rs, in source order. -/
def NEIGHBOURS : List (Int × Int × Int) :=
  [(-1, -1, -1), (-1, -1, 0), (-1, -1, 1),
   (-1, 0, -1), (-1, 0, 0), (-1, 0, 1),
   (-1, 1, -1), (-1, 1, 0), (-1, 1, 1),
   (0, -1, -1), (0, -1, 0), (0, -1, 1),
   (0, 0, -1), (0, 0, 0), (0, 0, 1),
   (0, 1, -1), (0, 1, 0), (0, 1, 1),
   (1, -1, -1), (1, -1, 0), (1, -1, 1),
   (1, 0, -1), (1, 0, 0), (1, 0, 1),
   (1, 1, -1), (1, 1, 0), (1, 1, 1)]

/-- lennard_jones from src/universe.rs:
r * ((frac_pow_6 * frac_pow_6 - frac_pow_6) * 4.0 * EPSILON)
where frac_pow_6 = (SIGMA / r.norm())^6, EPSILON = 1.8e3, SIGMA = 4.0e-10. -/
noncomputable def lennard_jones (r : Vec3) : Vec3 :=
  let EPSILON : ℝ := 1.8e3
  let SIGMA : ℝ := 4.0e-10
  let sigma_over_r := SIGMA / r.norm
  let frac_pow_6 := sigma_over_r ^ (6 : ℕ)
  r * ((frac_pow_6 * frac_pow_6 - frac_pow_6) * 4.0 * EPSILON)

/-- Predictor stage body of Universe::step, for one particle:
pos += vel * dt + acc * dt * dt * 0.5; vel += acc * dt.
The position update reads the pre-update velocity (the Rust statement updates
pos before vel), and both updates read the acceleration left from the previous step. -/
noncomputable def predictorParticle (dt : Time) (p : Particle) : Particle :=
  ⟨p.pos + p.vel * dt + p.acc * dt * dt * (0.5 : ℝ), p.vel + p.acc * dt, p.acc, p.mass⟩

/-- Predictor stage of Universe::step (the first for-loop). -/
noncomputable def predictorStage (u : Universe) : Universe :=
  ⟨u.time, u.iteration, u.dt, u.boundary, u.temperature,
    u.particles.map (predictorParticle u.dt)⟩

/-- Inner force accumulation of Universe::step for one particle and one image
offset: starting from Vec3::zero, for each (other_index, other_pos) with
other_index different from index, subtract
lennard_jones (pos - Vec3::new(x, y, z) * other_pos). -/
noncomputable def image_force (off : Int × Int × Int) (index : ℕ) (pos : Vec3)
    (other_positions : List Vec3) : Vec3 :=
  other_positions.enum.foldl
    (fun force other =>
      if index = other.1 then force
      else
        let other_pos_adjusted := (⟨(off.1 : ℝ), (off.2.1 : ℝ), (off.2.2 : ℝ)⟩ : Vec3) * other.2
        let r := pos - other_pos_adjusted
        force - lennard_jones r)
    Vec3.zero

/-- One iteration of the outer offset loop of the force-evaluation stage of
Universe::step: for every particle, overwrite its acceleration with the force
accumulated for this single offset, divided by its mass. -/
noncomputable def forceOffset (off : Int × Int × Int) (other_positions : List Vec3)
    (ps : List Particle) : List Particle :=
  ps.enum.map (fun ip =>
    ⟨ip.2.pos, ip.2.vel, image_force off ip.1 ip.2.pos other_positions / ip.2.mass, ip.2.mass⟩)

/-- Force-evaluation stage of Universe::step: snapshot the positions, then loop
over all 27 NEIGHBOURS offsets, each iteration overwriting every particle's
acceleration. -/
noncomputable def forceStage (u : Universe) : Universe :=
  let other_positions := u.particles.map (fun p => p.pos)
  ⟨u.time, u.iteration, u.dt, u.boundary, u.temperature,
    NEIGHBOURS.foldl (fun ps off => forceOffset off other_positions ps) u.particles⟩

/-- One coordinate of the boundary stage of Universe::step:
if pos < -0.5 * bound then pos + bound else if pos > 0.5 * bound then pos - bound. -/
noncomputable def wrapCoord (pos bound : ℝ) : ℝ :=
  if pos < -0.5 * bound then pos + bound
  else if pos > 0.5 * bound then pos - bound
  else pos

/-- Boundary stage of Universe::step for one particle: each axis handled
independently; velocity, acceleration and mass untouched. -/
noncomputable def boundaryParticle (bound : Vec3) (p : Particle) : Particle :=
  ⟨⟨wrapCoord p.pos.x bound.x, wrapCoord p.pos.y bound.y, wrapCoord p.pos.z bound.z⟩,
    p.vel, p.acc, p.mass⟩

/-- Boundary stage of Universe::step. -/
noncomputable def boundaryStage (u : Universe) : Universe :=
  ⟨u.time, u.iteration, u.dt, u.boundary, u.temperature,
    u.particles.map (boundaryParticle u.boundary)⟩

/-- Thermostat body of Universe::step for one particle:
new_norm = sqrt(two_ekin / mass); scaling_factor = new_norm / vel.norm();
vel = vel * scaling_factor. -/
noncomputable def thermostatParticle (two_ekin : ℝ) (p : Particle) : Particle :=
  let new_norm := Real.sqrt (two_ekin / p.mass)
  let scaling_factor := new_norm / p.vel.norm
  ⟨p.pos, p.vel * scaling_factor, p.acc, p.mass⟩

/-- Thermostat stage of Universe::step:
t = temperature / particles.len(); two_ekin = 3.0 * BOLTZMANN * t. -/
noncomputable def thermostatStage (u : Universe) : Universe :=
  let t := u.temperature / (u.particles.length : ℝ)
  let two_ekin := 3.0 * BOLTZMANN * t
  ⟨u.time, u.iteration, u.dt, u.boundary, u.temperature,
    u.particles.map (thermostatParticle two_ekin)⟩

/-- Final lines of Universe::step: time += dt; iteration += 1. -/
noncomputable def advanceStage (u : Universe) : Universe :=
  ⟨u.time + u.dt, u.iteration + 1, u.dt, u.boundary, u.temperature, u.particles⟩

/-- Universe::step from src/universe.rs: the five source blocks run in order
(predictor loop, force loop, boundary loop, thermostat loop, advance). -/
noncomputable def Universe.step (u : Universe) : Universe :=
  advanceStage (thermostatStage (boundaryStage (forceStage (predictorStage u))))

/-- Specification-side acceleration, following the words of the claim (for
comparison with the source-translated force stage): (1 / mass) times the
total force summed over all 27 periodic image offsets and all other
particles, where each contribution is the negated Lennard-Jones value of the
separation vector from the particle's position to the image of the other
particle, the image being placed at the snapshot position plus the offset
scaled component-wise by the boundary extent. -/
noncomputable def spec_accel (boundary : Vec3) (index : ℕ) (pos : Vec3) (mass : ℝ)
    (snapshot : List Vec3) : Vec3 :=
  (NEIGHBOURS.foldl
    (fun total off =>
      snapshot.enum.foldl
        (fun total2 other =>
          if index = other.1 then total2
          else
            let image := other.2 + (⟨(off.1 : ℝ), (off.2.1 : ℝ), (off.2.2 : ℝ)⟩ : Vec3) * boundary
            total2 + (-(lennard_jones (image - pos))))
        total)
    Vec3.zero) * (1 / mass)

/-- The scalar factor of lennard_jones at separation norm 1:
((SIGMA^6)^2 - SIGMA^6) * 4 * EPSILON. -/
noncomputable def lj_one : ℝ :=
  ((4.0e-10 : ℝ) ^ (6 : ℕ) * (4.0e-10 : ℝ) ^ (6 : ℕ) - (4.0e-10 : ℝ) ^ (6 : ℕ)) * 4.0 * 1.8e3

/-- Concrete two-particle input for the force-evaluation stage: unit masses,
positions (2,0,0) and (3,0,0), everything else trivial. -/
noncomputable def Uforce : Universe :=
  ⟨Time.zero, 0, Time.from_seconds 1, Vec3.zero, 0,
    [⟨⟨2, 0, 0⟩, Vec3.zero, Vec3.zero, 1⟩, ⟨⟨3, 0, 0⟩, Vec3.zero, Vec3.zero, 1⟩]⟩

/-- Concrete divergent input in the sense of the specification's divergence
test: two particles at exactly zero separation (both at (1,0,0)). -/
noncomputable def Udiv : Universe :=
  ⟨Time.zero, 0, Time.from_seconds 1, ⟨10, 10, 10⟩, 0,
    [⟨⟨1, 0, 0⟩, Vec3.zero, Vec3.zero, 1⟩, ⟨⟨1, 0, 0⟩, Vec3.zero, Vec3.zero, 1⟩]⟩

/-- Concrete one-particle input for the thermostat: velocity (3,4,0) of norm 5,
mass 2, target temperature 300 K. -/
noncomputable def Utherm : Universe :=
  ⟨Time.zero, 0, Time.from_seconds 1, ⟨10, 10, 10⟩, 300,
    [⟨Vec3.zero, ⟨3, 4, 0⟩, Vec3.zero, 2⟩]⟩

/-- Concrete one-particle input whose velocity norm is exactly zero. -/
noncomputable def Uzero : Universe :=
  ⟨Time.zero, 0, Time.from_seconds 1, ⟨10, 10, 10⟩, 300,
    [⟨⟨1, 0, 0⟩, Vec3.zero, Vec3.zero, 1⟩]⟩

/-- Concrete input for the predictor and boundary stages. -/
noncomputable def Upred : Universe :=
  ⟨Time.zero, 0, Time.from_seconds 2, ⟨4, 4, 4⟩, 300,
    [⟨⟨3, 0, -5⟩, ⟨1, 1, 0⟩, ⟨0, 2, 0⟩, 1⟩]⟩

/-- Helper for str::split_once: split a character list at the first
occurrence of the separator. -/
def splitOnceAux (c : Char) : List Char → Option (List Char × List Char)
  | [] => none
  | a :: rest =>
    if a = c then some ([], rest)
    else (splitOnceAux c rest).map (fun pr => (a :: pr.1, pr.2))

/-- Rust str::split_once from the standard library, as called by the parsers
in src/recipe/mod.rs: split at the first occurrence of the separator, or
return none when the separator does not occur. -/
def split_once (s : String) (c : Char) : Option (String × String) :=
  (splitOnceAux c s.toList).map (fun pr => (pr.1.asString, pr.2.asString))

/-- Numeric value of a decimal digit character, none for a non-digit. -/
def digit? (c : Char) : Option ℕ :=
  if c.isDigit then some (c.toNat - 48) else none

/-- All-digit parse of a nonempty character list as a natural number. -/
def parseNatDigits (cs : List Char) : Option ℕ :=
  if cs.isEmpty then none
  else cs.foldl (fun acc c => acc.bind (fun n => (digit? c).map (fun d => 10 * n + d))) (some 0)

/-- Components of a plain decimal numeral: sign, integer part, fractional
digits value, number of fractional digits. -/
structure DecimalParts where
  neg : Bool
  intPart : ℕ
  fracPart : ℕ
  fracLen : ℕ
  deriving DecidableEq

/-- Computable front end of the numeral model: optional leading minus sign,
a digit string, and an optional fractional digit string after one dot. -/
def parseDecimalParts (s : String) : Option DecimalParts :=
  let cs := s.toList
  let neg := cs.head? == some '-'
  let body := if neg then cs.tail else cs
  match splitOnceAux '.' body with
  | none => (parseNatDigits body).map (fun n => ⟨neg, n, 0, 0⟩)
  | some pr =>
    (parseNatDigits pr.1).bind (fun ip =>
      (parseNatDigits pr.2).map (fun fp => ⟨neg, ip, fp, pr.2.length⟩))

/-- Model of str::parse::<f64> from the Rust standard library (library code,
not part of this repository), restricted to the plain decimal numerals the
recipe format uses; such numerals are parsed exactly, into ℝ here. -/
noncomputable def parse_f64 (s : String) : Option ℝ :=
  (parseDecimalParts s).map (fun d =>
    (if d.neg then (-1 : ℝ) else 1) * ((d.intPart : ℝ) + (d.fracPart : ℝ) / 10 ^ d.fracLen))

/-- BibberParseError from src/recipe/mod.rs (the ParseFloatError payload of
the source is dropped in this model). -/
inductive BibberParseError
  | TooFewArguments
  | TooManyArguments
  | NoUnit
  | UnknownUnit
  | InvalidUnit
  | ParseFloatError

/-- parse_temperature_value from src/recipe/mod.rs: split at the colon
(missing colon or empty unit is NoUnit), parse the number, then match the
unit: offset 0.0 for K, offset 273.15 for C (the source comments this with
0 C == -273.15 K), length or time units are InvalidUnit, anything else
UnknownUnit; finally return kelvin = value - offset. -/
noncomputable def parse_temperature_value (s : String) : Except BibberParseError ℝ :=
  match split_once s ':' with
  | none => Except.error BibberParseError.NoUnit
  | some pr =>
    if pr.2 = "" then Except.error BibberParseError.NoUnit
    else
      match parse_f64 pr.1 with
      | none => Except.error BibberParseError.ParseFloatError
      | some value =>
        let offsetE : Except BibberParseError ℝ :=
          if pr.2 = "K" then Except.ok 0.0
          else if pr.2 = "C" then Except.ok 273.15
          else if pr.2 = "km" ∨ pr.2 = "m" ∨ pr.2 = "dm" ∨ pr.2 = "cm" ∨ pr.2 = "mm"
              ∨ pr.2 = "um" ∨ pr.2 = "nm" ∨ pr.2 = "pm" ∨ pr.2 = "fm" ∨ pr.2 = "s"
              ∨ pr.2 = "ms" ∨ pr.2 = "us" ∨ pr.2 = "ns" ∨ pr.2 = "ps" ∨ pr.2 = "fs" then
            Except.error BibberParseError.InvalidUnit
          else Except.error BibberParseError.UnknownUnit
        offsetE.map (fun offset => value - offset)

/-! Unfolding lemmas for the arithmetic instances. -/

@[simp] theorem Vec3.add_def (a b : Vec3) : a + b = ⟨a.x + b.x, a.y + b.y, a.z + b.z⟩ := rfl

@[simp] theorem Vec3.sub_def (a b : Vec3) : a - b = ⟨a.x - b.x, a.y - b.y, a.z - b.z⟩ := rfl

@[simp] theorem Vec3.mul_def (a b : Vec3) : a * b = ⟨a.x * b.x, a.y * b.y, a.z * b.z⟩ := rfl

@[simp] theorem Vec3.neg_def (a : Vec3) : -a = ⟨-a.x, -a.y, -a.z⟩ := rfl

@[simp] theorem Vec3.smul_def (v : Vec3) (s : ℝ) : v * s = ⟨v.x * s, v.y * s, v.z * s⟩ := rfl

@[simp] theorem Vec3.sdiv_def (v : Vec3) (s : ℝ) : v / s = ⟨v.x / s, v.y / s, v.z / s⟩ := rfl

@[simp] theorem Vec3.tmul_def (v : Vec3) (t : Time) :
    v * t = ⟨v.x * t.seconds, v.y * t.seconds, v.z * t.seconds⟩ := rfl

@[simp] theorem Time.addition_def (a b : Time) : a + b = ⟨a.seconds + b.seconds⟩ := rfl

theorem Vec3.norm_nonneg (v : Vec3) : 0 ≤ v.norm := Real.sqrt_nonneg _

theorem Vec3.norm_zero_vec : Vec3.zero.norm = 0 := by
  simp [Vec3.norm, Vec3.zero]

theorem Vec3.norm_axis (a : ℝ) (h : 0 ≤ a) : Vec3.norm ⟨a, 0, 0⟩ = a := by
  simp only [Vec3.norm]
  rw [show a ^ 2 + (0 : ℝ) ^ 2 + (0 : ℝ) ^ 2 = a ^ 2 by ring, Real.sqrt_sq h]

theorem Vec3.norm_smul (v : Vec3) (s : ℝ) : (v * s).norm = v.norm * |s| := by
  simp only [Vec3.smul_def, Vec3.norm]
  rw [show (v.x * s) ^ 2 + (v.y * s) ^ 2 + (v.z * s) ^ 2
        = (v.x ^ 2 + v.y ^ 2 + v.z ^ 2) * s ^ 2 by ring,
    Real.sqrt_mul (by positivity), Real.sqrt_sq_eq_abs]

/-! Structural lemmas about the force-evaluation stage: each offset iteration
only reads positions and masses and overwrites accelerations, so a later
iteration makes an earlier one irrelevant, and the whole 27-offset loop is
determined by its final offset (1, 1, 1). -/

theorem forceOffset_length (off : Int × Int × Int) (others : List Vec3)
    (ps : List Particle) : (forceOffset off others ps).length = ps.length := by
  simp [forceOffset]

theorem forceOffset_forceOffset (off off' : Int × Int × Int) (others : List Vec3)
    (ps : List Particle) :
    forceOffset off others (forceOffset off' others ps) = forceOffset off others ps := by
  apply List.ext_getElem
  · simp [forceOffset]
  · intro n h1 h2
    simp [forceOffset, List.getElem_map, List.getElem_enum]

theorem forceStage_eq (u : Universe) :
    forceStage u
      = ⟨u.time, u.iteration, u.dt, u.boundary, u.temperature,
          forceOffset (1, 1, 1) (u.particles.map (fun p => p.pos)) u.particles⟩ := by
  simp only [forceStage, NEIGHBOURS, List.foldl_cons, List.foldl_nil, forceOffset_forceOffset]

theorem predictorStage_fields (u : Universe) :
    (predictorStage u).time = u.time ∧ (predictorStage u).iteration = u.iteration
      ∧ (predictorStage u).dt = u.dt ∧ (predictorStage u).boundary = u.boundary
      ∧ (predictorStage u).temperature = u.temperature :=
  ⟨rfl, rfl, rfl, rfl, rfl⟩

theorem forceStage_fields (u : Universe) :
    (forceStage u).time = u.time ∧ (forceStage u).iteration = u.iteration
      ∧ (forceStage u).dt = u.dt ∧ (forceStage u).boundary = u.boundary
      ∧ (forceStage u).temperature = u.temperature := by
  rw [forceStage_eq]
  exact ⟨rfl, rfl, rfl, rfl, rfl⟩

theorem boundaryStage_fields (u : Universe) :
    (boundaryStage u).time = u.time ∧ (boundaryStage u).iteration = u.iteration
      ∧ (boundaryStage u).dt = u.dt ∧ (boundaryStage u).boundary = u.boundary
      ∧ (boundaryStage u).temperature = u.temperature :=
  ⟨rfl, rfl, rfl, rfl, rfl⟩

theorem thermostatStage_fields (u : Universe) :
    (thermostatStage u).time = u.time ∧ (thermostatStage u).iteration = u.iteration
      ∧ (thermostatStage u).dt = u.dt ∧ (thermostatStage u).boundary = u.boundary
      ∧ (thermostatStage u).temperature = u.temperature :=
  ⟨rfl, rfl, rfl, rfl, rfl⟩

theorem advanceStage_fields (u : Universe) :
    (advanceStage u).time = u.time + u.dt ∧ (advanceStage u).iteration = u.iteration + 1
      ∧ (advanceStage u).dt = u.dt ∧ (advanceStage u).boundary = u.boundary
      ∧ (advanceStage u).temperature = u.temperature
      ∧ (advanceStage u).particles = u.particles :=
  ⟨rfl, rfl, rfl, rfl, rfl, rfl⟩

theorem step_fields (u : Universe) :
    (u.step).time = u.time + u.dt
      ∧ (u.step).iteration = u.iteration + 1
      ∧ (u.step).dt = u.dt
      ∧ (u.step).boundary = u.boundary
      ∧ (u.step).temperature = u.temperature := by
  have hp := predictorStage_fields u
  have hf := forceStage_fields (predictorStage u)
  have hb := boundaryStage_fields (forceStage (predictorStage u))
  have ht := thermostatStage_fields (boundaryStage (forceStage (predictorStage u)))
  have ha := advanceStage_fields (thermostatStage (boundaryStage (forceStage (predictorStage u))))
  show (advanceStage (thermostatStage (boundaryStage (forceStage (predictorStage u))))).time = _
      ∧ (advanceStage _).iteration = _ ∧ (advanceStage _).dt = _
      ∧ (advanceStage _).boundary = _ ∧ (advanceStage _).temperature = _
  refine ⟨?_, ?_, ?_, ?_, ?_⟩
  · rw [ha.1, ht.1, hb.1, hf.1, hp.1, ht.2.2.1, hb.2.2.1, hf.2.2.1, hp.2.2.1]
  · rw [ha.2.1, ht.2.1, hb.2.1, hf.2.1, hp.2.1]
  · rw [ha.2.2.1, ht.2.2.1, hb.2.2.1, hf.2.2.1, hp.2.2.1]
  · rw [ha.2.2.2.1, ht.2.2.2.1, hb.2.2.2.1, hf.2.2.2.1, hp.2.2.2.1]
  · rw [ha.2.2.2.2.1, ht.2.2.2.2, hb.2.2.2.2, hf.2.2.2.2, hp.2.2.2.2]

theorem thermostatStage_length (u : Universe) :
    (thermostatStage u).particles.length = u.particles.length := by
  simp [thermostatStage]

theorem boundaryStage_length (u : Universe) :
    (boundaryStage u).particles.length = u.particles.length := by
  simp [boundaryStage]

theorem forceStage_length (u : Universe) :
    (forceStage u).particles.length = u.particles.length := by
  rw [forceStage_eq]
  exact forceOffset_length _ _ _

theorem predictorStage_length (u : Universe) :
    (predictorStage u).particles.length = u.particles.length := by
  simp [predictorStage]

theorem step_length (u : Universe) :
    (u.step).particles.length = u.particles.length := by
  show (advanceStage (thermostatStage (boundaryStage (forceStage (predictorStage u))))).particles.length = _
  rw [(advanceStage_fields _).2.2.2.2.2, thermostatStage_length, boundaryStage_length,
    forceStage_length, predictorStage_length]

/-- C6: every call to Universe::step advances time by exactly dt and increments
iteration by exactly 1, and leaves dt, the boundary, the target temperature,
and the length of the particle sequence unchanged. -/
theorem step_frame_effects (u : Universe) :
    (u.step).time = u.time + u.dt
      ∧ (u.step).iteration = u.iteration + 1
      ∧ (u.step).dt = u.dt
      ∧ (u.step).boundary = u.boundary
      ∧ (u.step).temperature = u.temperature
      ∧ (u.step).particles.length = u.particles.length :=
  ⟨(step_fields u).1, (step_fields u).2.1, (step_fields u).2.2.1, (step_fields u).2.2.2.1,
    (step_fields u).2.2.2.2, step_length u⟩

/-- C2 (amended): Universe::step returns no success/failure value and performs
no divergence detection; it unconditionally advances time by dt and iteration
by 1 on every call, for every input state. -/
theorem step_advances_unconditionally (u : Universe) :
    (u.step).time = u.time + u.dt ∧ (u.step).iteration = u.iteration + 1 :=
  ⟨(step_fields u).1, (step_fields u).2.1⟩

/-- C2 counterexample: on the specification's own divergence scenario (two
particles at exactly zero separation), step still advances: time goes from 0
to 1 second and iteration from 0 to 1, so the state is not left at the prior
snapshot and no failure is reported (step has no failure channel at all). -/
theorem step_divergence_not_detected :
    Udiv.particles.map Particle.pos = [⟨1, 0, 0⟩, ⟨1, 0, 0⟩]
      ∧ Udiv.time = Time.from_seconds 0
      ∧ Udiv.iteration = 0
      ∧ (Udiv.step).time = Time.from_seconds 1
      ∧ (Udiv.step).iteration = 1 := by
  refine ⟨rfl, rfl, rfl, ?_, ?_⟩
  · rw [(step_fields Udiv).1]
    simp only [Udiv, Time.zero, Time.from_seconds, Time.addition_def, Time.mk.injEq]
    norm_num
  · rw [(step_fields Udiv).2.1]
    rfl

/-- C3: the predictor stage of Universe::step updates, for every particle,
position by pos += vel*dt + (1/2)*acc*dt^2 and velocity by vel += acc*dt,
using the acceleration left over from the previous step for both updates
(the acceleration itself is untouched by this stage). -/
theorem predictor_stage_spec (u : Universe) (i : ℕ)
    (hi : i < u.particles.length) (hi2 : i < (predictorStage u).particles.length) :
    ((predictorStage u).particles.get ⟨i, hi2⟩).pos
        = (u.particles.get ⟨i, hi⟩).pos + (u.particles.get ⟨i, hi⟩).vel * u.dt
          + (u.particles.get ⟨i, hi⟩).acc * (u.dt.seconds ^ 2 / 2)
      ∧ ((predictorStage u).particles.get ⟨i, hi2⟩).vel
        = (u.particles.get ⟨i, hi⟩).vel + (u.particles.get ⟨i, hi⟩).acc * u.dt
      ∧ ((predictorStage u).particles.get ⟨i, hi2⟩).acc = (u.particles.get ⟨i, hi⟩).acc := by
  refine ⟨?_, ?_, ?_⟩
  · simp only [predictorStage, List.get_eq_getElem, List.getElem_map, predictorParticle]
    simp only [Vec3.tmul_def, Vec3.smul_def, Vec3.add_def, Vec3.mk.injEq]
    refine ⟨by ring, by ring, by ring⟩
  · simp only [predictorStage, List.get_eq_getElem, List.getElem_map, predictorParticle]
  · simp only [predictorStage, List.get_eq_getElem, List.getElem_map, predictorParticle]

theorem Upred_len : 0 < Upred.particles.length := by
  simp [Upred]

theorem Upred_lenP : 0 < (predictorStage Upred).particles.length := by
  rw [predictorStage_length]
  simp [Upred]

theorem predictor_stage_spec_witness :
    ((predictorStage Upred).particles.get ⟨0, Upred_lenP⟩).pos
        = (Upred.particles.get ⟨0, Upred_len⟩).pos + (Upred.particles.get ⟨0, Upred_len⟩).vel * Upred.dt
          + (Upred.particles.get ⟨0, Upred_len⟩).acc * (Upred.dt.seconds ^ 2 / 2)
      ∧ ((predictorStage Upred).particles.get ⟨0, Upred_lenP⟩).vel
        = (Upred.particles.get ⟨0, Upred_len⟩).vel + (Upred.particles.get ⟨0, Upred_len⟩).acc * Upred.dt
      ∧ ((predictorStage Upred).particles.get ⟨0, Upred_lenP⟩).acc
        = (Upred.particles.get ⟨0, Upred_len⟩).acc :=
  predictor_stage_spec Upred 0 Upred_len Upred_lenP

/-- C10: the boundary stage compares each position coordinate against half the
boundary extent on that axis, and when the coordinate lies outside the
interval from -extent/2 to extent/2 it shifts the coordinate by exactly one
boundary extent toward the cell (a single increment, applied at most once per
axis per step); coordinates already inside the interval and all velocities
are left unchanged, and a coordinate more than 1.5 extents from the origin
remains outside the cell after the stage. -/
theorem boundary_stage_spec (u : Universe) (i : ℕ)
    (hi : i < u.particles.length) (hi2 : i < (boundaryStage u).particles.length) :
    ((boundaryStage u).particles.get ⟨i, hi2⟩).vel = (u.particles.get ⟨i, hi⟩).vel
      ∧ ((boundaryStage u).particles.get ⟨i, hi2⟩).acc = (u.particles.get ⟨i, hi⟩).acc
      ∧ ((boundaryStage u).particles.get ⟨i, hi2⟩).mass = (u.particles.get ⟨i, hi⟩).mass
      ∧ ((boundaryStage u).particles.get ⟨i, hi2⟩).pos
          = ⟨wrapCoord (u.particles.get ⟨i, hi⟩).pos.x u.boundary.x,
             wrapCoord (u.particles.get ⟨i, hi⟩).pos.y u.boundary.y,
             wrapCoord (u.particles.get ⟨i, hi⟩).pos.z u.boundary.z⟩
      ∧ (∀ c e : ℝ, -(e / 2) ≤ c → c ≤ e / 2 → wrapCoord c e = c)
      ∧ (∀ c e : ℝ, c < -(e / 2) → wrapCoord c e = c + e)
      ∧ (∀ c e : ℝ, 0 ≤ e → e / 2 < c → wrapCoord c e = c - e)
      ∧ (∀ c e : ℝ, 0 < e → 3 / 2 * e < |c| → e / 2 < |wrapCoord c e|) := by
  refine ⟨?_, ?_, ?_, ?_, ?_, ?_, ?_, ?_⟩
  · simp only [boundaryStage, List.get_eq_getElem, List.getElem_map, boundaryParticle]
  · simp only [boundaryStage, List.get_eq_getElem, List.getElem_map, boundaryParticle]
  · simp only [boundaryStage, List.get_eq_getElem, List.getElem_map, boundaryParticle]
  · simp only [boundaryStage, List.get_eq_getElem, List.getElem_map, boundaryParticle]
  · intro c e h1 h2
    rw [wrapCoord, if_neg (not_lt.mpr (by linarith)), if_neg (not_lt.mpr (by linarith))]
  · intro c e h
    rw [wrapCoord, if_pos (by linarith)]
  · intro c e he h
    rw [wrapCoord, if_neg (not_lt.mpr (by linarith)), if_pos (by linarith)]
  · intro c e he hc
    rcases lt_abs.mp hc with h | h
    · rw [wrapCoord, if_neg (not_lt.mpr (by linarith)), if_pos (by linarith),
        abs_of_pos (by linarith)]
      linarith
    · rw [wrapCoord, if_pos (by linarith), abs_of_neg (by linarith)]
      linarith

theorem Upred_lenB : 0 < (boundaryStage Upred).particles.length := by
  rw [boundaryStage_length]
  simp [Upred]

theorem boundary_stage_spec_witness :
    ((boundaryStage Upred).particles.get ⟨0, Upred_lenB⟩).vel
        = (Upred.particles.get ⟨0, Upred_len⟩).vel
      ∧ ((boundaryStage Upred).particles.get ⟨0, Upred_lenB⟩).acc
        = (Upred.particles.get ⟨0, Upred_len⟩).acc
      ∧ ((boundaryStage Upred).particles.get ⟨0, Upred_lenB⟩).mass
        = (Upred.particles.get ⟨0, Upred_len⟩).mass
      ∧ ((boundaryStage Upred).particles.get ⟨0, Upred_lenB⟩).pos
          = ⟨wrapCoord (Upred.particles.get ⟨0, Upred_len⟩).pos.x Upred.boundary.x,
             wrapCoord (Upred.particles.get ⟨0, Upred_len⟩).pos.y Upred.boundary.y,
             wrapCoord (Upred.particles.get ⟨0, Upred_len⟩).pos.z Upred.boundary.z⟩
      ∧ (∀ c e : ℝ, -(e / 2) ≤ c → c ≤ e / 2 → wrapCoord c e = c)
      ∧ (∀ c e : ℝ, c < -(e / 2) → wrapCoord c e = c + e)
      ∧ (∀ c e : ℝ, 0 ≤ e → e / 2 < c → wrapCoord c e = c - e)
      ∧ (∀ c e : ℝ, 0 < e → 3 / 2 * e < |c| → e / 2 < |wrapCoord c e|) :=
  boundary_stage_spec Upred 0 Upred_len Upred_lenB

theorem thermostatStage_get (u : Universe) (i : ℕ)
    (hi : i < u.particles.length) (hi2 : i < (thermostatStage u).particles.length) :
    (thermostatStage u).particles.get ⟨i, hi2⟩
      = thermostatParticle (3.0 * BOLTZMANN * (u.temperature / (u.particles.length : ℝ)))
          (u.particles.get ⟨i, hi⟩) := by
  simp only [thermostatStage, List.get_eq_getElem, List.getElem_map]

/-- C5: after the thermostat stage of Universe::step, every particle whose
pre-rescale velocity norm is nonzero (here with positive target temperature
and positive mass, so that the target speed is a real number, matching the
f64 code where a negative sqrt argument would be NaN) has velocity norm equal
to sqrt(3 * k_B * (T_target / particle_count) / mass) with
k_B = 1.380649e-23, and its velocity direction is unchanged (the new velocity
is a positive scalar multiple of the old), regardless of its pre-rescale
norm. -/
theorem thermostat_rescales_to_target (u : Universe) (i : ℕ)
    (hi : i < u.particles.length) (hi2 : i < (thermostatStage u).particles.length)
    (hT : 0 < u.temperature)
    (hm : 0 < (u.particles.get ⟨i, hi⟩).mass)
    (hv : (u.particles.get ⟨i, hi⟩).vel.norm ≠ 0) :
    ((thermostatStage u).particles.get ⟨i, hi2⟩).vel.norm
        = Real.sqrt (3 * BOLTZMANN * (u.temperature / (u.particles.length : ℝ))
            / (u.particles.get ⟨i, hi⟩).mass)
      ∧ ∃ c : ℝ, 0 < c
          ∧ ((thermostatStage u).particles.get ⟨i, hi2⟩).vel
            = (u.particles.get ⟨i, hi⟩).vel * c := by
  have hlen : 0 < ((u.particles.length : ℕ) : ℝ) := by
    have : 0 < u.particles.length := lt_of_le_of_lt (Nat.zero_le i) hi
    exact_mod_cast this
  have hnp : 0 < (u.particles.get ⟨i, hi⟩).vel.norm :=
    lt_of_le_of_ne (Vec3.norm_nonneg _) (Ne.symm hv)
  have hB : (0 : ℝ) < BOLTZMANN := by norm_num [BOLTZMANN]
  have hte : 0 < 3.0 * BOLTZMANN * (u.temperature / (u.particles.length : ℝ)) :=
    mul_pos (mul_pos (by norm_num) hB) (div_pos hT hlen)
  have hN : 0 < Real.sqrt (3.0 * BOLTZMANN * (u.temperature / (u.particles.length : ℝ))
      / (u.particles.get ⟨i, hi⟩).mass) :=
    Real.sqrt_pos.mpr (div_pos hte hm)
  rw [thermostatStage_get u i hi hi2]
  constructor
  · show ((u.particles.get ⟨i, hi⟩).vel
        * (Real.sqrt (3.0 * BOLTZMANN * (u.temperature / (u.particles.length : ℝ))
            / (u.particles.get ⟨i, hi⟩).mass) / (u.particles.get ⟨i, hi⟩).vel.norm)).norm = _
    rw [Vec3.norm_smul,
      abs_of_nonneg (div_nonneg (Real.sqrt_nonneg _) (le_of_lt hnp)),
      mul_comm, div_mul_cancel₀ _ (ne_of_gt hnp)]
    norm_num
  · exact ⟨_, div_pos hN hnp, rfl⟩

theorem Utherm_len : 0 < Utherm.particles.length := by
  simp [Utherm]

theorem Utherm_lenT : 0 < (thermostatStage Utherm).particles.length := by
  rw [thermostatStage_length]
  simp [Utherm]

theorem Utherm_vel_norm : (Utherm.particles.get ⟨0, Utherm_len⟩).vel.norm = 5 := by
  show Vec3.norm ⟨3, 4, 0⟩ = 5
  simp only [Vec3.norm]
  rw [show (3 : ℝ) ^ 2 + (4 : ℝ) ^ 2 + (0 : ℝ) ^ 2 = 5 ^ 2 by norm_num,
    Real.sqrt_sq (by norm_num)]

theorem thermostat_rescales_to_target_witness :
    ((thermostatStage Utherm).particles.get ⟨0, Utherm_lenT⟩).vel.norm
        = Real.sqrt (3 * BOLTZMANN * (Utherm.temperature / (Utherm.particles.length : ℝ))
            / (Utherm.particles.get ⟨0, Utherm_len⟩).mass)
      ∧ ∃ c : ℝ, 0 < c
          ∧ ((thermostatStage Utherm).particles.get ⟨0, Utherm_lenT⟩).vel
            = (Utherm.particles.get ⟨0, Utherm_len⟩).vel * c :=
  thermostat_rescales_to_target Utherm 0 Utherm_len Utherm_lenT
    (by norm_num [Utherm]) (by norm_num [Utherm, List.get])
    (by rw [Utherm_vel_norm]; norm_num)

/-- C9 (amended): the implementation defines no policy for a particle whose
velocity norm is exactly zero when the thermostat stage runs: it neither
raises nor flags the condition but applies the very same rescale formula,
whose scaling factor is the target speed divided by the zero norm (in the
IEEE f64 arithmetic of the source this non-finite factor propagates
silently; no branch in the stage distinguishes the case). -/
theorem thermostat_zero_norm_unguarded (u : Universe) (i : ℕ)
    (hi : i < u.particles.length) (hi2 : i < (thermostatStage u).particles.length)
    (hv : (u.particles.get ⟨i, hi⟩).vel.norm = 0) :
    ((thermostatStage u).particles.get ⟨i, hi2⟩).vel
      = (u.particles.get ⟨i, hi⟩).vel
          * (Real.sqrt (3.0 * BOLTZMANN * (u.temperature / (u.particles.length : ℝ))
              / (u.particles.get ⟨i, hi⟩).mass) / 0) := by
  rw [thermostatStage_get u i hi hi2]
  show (u.particles.get ⟨i, hi⟩).vel
      * (Real.sqrt (3.0 * BOLTZMANN * (u.temperature / (u.particles.length : ℝ))
          / (u.particles.get ⟨i, hi⟩).mass) / (u.particles.get ⟨i, hi⟩).vel.norm) = _
  rw [hv]

theorem Uzero_len : 0 < Uzero.particles.length := by
  simp [Uzero]

theorem Uzero_lenT : 0 < (thermostatStage Uzero).particles.length := by
  rw [thermostatStage_length]
  simp [Uzero]

theorem Uzero_vel_norm : (Uzero.particles.get ⟨0, Uzero_len⟩).vel.norm = 0 := by
  show Vec3.zero.norm = 0
  exact Vec3.norm_zero_vec

theorem thermostat_zero_norm_unguarded_witness :
    ((thermostatStage Uzero).particles.get ⟨0, Uzero_lenT⟩).vel
      = (Uzero.particles.get ⟨0, Uzero_len⟩).vel
          * (Real.sqrt (3.0 * BOLTZMANN * (Uzero.temperature / (Uzero.particles.length : ℝ))
              / (Uzero.particles.get ⟨0, Uzero_len⟩).mass) / 0) :=
  thermostat_zero_norm_unguarded Uzero 0 Uzero_len Uzero_lenT Uzero_vel_norm

/-- C9 counterexample: on a concrete particle with exactly zero velocity norm
the thermostat stage neither raises nor flags anything: it returns an
ordinary state, produced by the unguarded rescale formula whose scaling
factor divides the target speed by the zero norm. -/
theorem thermostat_zero_norm_silent :
    Uzero.particles.map (fun p => p.vel.norm) = [0]
      ∧ (thermostatStage Uzero).particles.map Particle.vel
          = [Vec3.zero * (Real.sqrt (3.0 * BOLTZMANN * (300 / 1) / 1) / 0)] := by
  constructor
  · simp [Uzero, Vec3.norm_zero_vec]
  · simp [thermostatStage, thermostatParticle, Uzero, Vec3.norm_zero_vec]

theorem lj_scalar_neg (n : ℝ) (h : 4.0e-10 < n) :
    ((4.0e-10 / n) ^ (6 : ℕ) * (4.0e-10 / n) ^ (6 : ℕ) - (4.0e-10 / n) ^ (6 : ℕ))
        * 4.0 * 1.8e3 < 0 := by
  have hn : (0 : ℝ) < n := lt_trans (by norm_num) h
  have hq0 : (0 : ℝ) < 4.0e-10 / n := div_pos (by norm_num) hn
  have hq1 : (4.0e-10 : ℝ) / n < 1 := (div_lt_one hn).mpr (by nlinarith)
  have hf0 : (0 : ℝ) < (4.0e-10 / n) ^ (6 : ℕ) := pow_pos hq0 6
  have hf1 : ((4.0e-10 : ℝ) / n) ^ (6 : ℕ) < 1 := pow_lt_one₀ (le_of_lt hq0) hq1 (by norm_num)
  nlinarith [hf0, hf1]

/-- C4 counterexample: the force-evaluation stage contains no cutoff at all:
for every candidate cutoff distance there is a separation beyond it whose
Lennard-Jones contribution to the force sum is nonzero. -/
theorem force_cutoff_counterexample :
    ¬ ∃ cutoff : ℝ, 0 < cutoff
        ∧ ∀ r : Vec3, cutoff < r.norm → lennard_jones r = Vec3.zero := by
  rintro ⟨rc, hrc, h⟩
  have hnorm : Vec3.norm ⟨rc + 1, 0, 0⟩ = rc + 1 := Vec3.norm_axis _ (by linarith)
  have hr : rc < Vec3.norm ⟨rc + 1, 0, 0⟩ := by
    rw [hnorm]
    linarith
  have heq := h _ hr
  simp only [lennard_jones, hnorm, Vec3.smul_def, Vec3.zero, Vec3.mk.injEq] at heq
  have hs := lj_scalar_neg (rc + 1) (by norm_num [hrc]; linarith)
  exact absurd heq.1 (ne_of_lt (mul_neg_of_pos_of_neg (by linarith) hs))

/-- C4 (amended): the force-evaluation stage applies no distance cutoff; a
pair (or periodic image) at any separation whose norm exceeds SIGMA = 4e-10
meters, hence in particular a pair beyond any intended cutoff radius, still
contributes a nonzero Lennard-Jones term to the force sum. -/
theorem lennard_jones_nonzero_beyond_sigma (r : Vec3) (h : 4.0e-10 < r.norm) :
    lennard_jones r ≠ Vec3.zero := by
  intro heq
  have hs := lj_scalar_neg r.norm h
  have hsne : ((4.0e-10 / r.norm) ^ (6 : ℕ) * (4.0e-10 / r.norm) ^ (6 : ℕ)
      - (4.0e-10 / r.norm) ^ (6 : ℕ)) * 4.0 * 1.8e3 ≠ 0 := ne_of_lt hs
  simp only [lennard_jones, Vec3.smul_def, Vec3.zero, Vec3.mk.injEq] at heq
  have hx : r.x = 0 := by
    rcases mul_eq_zero.mp heq.1 with h0 | h0
    · exact h0
    · exact absurd h0 hsne
  have hy : r.y = 0 := by
    rcases mul_eq_zero.mp heq.2.1 with h0 | h0
    · exact h0
    · exact absurd h0 hsne
  have hz : r.z = 0 := by
    rcases mul_eq_zero.mp heq.2.2 with h0 | h0
    · exact h0
    · exact absurd h0 hsne
  have hn0 : r.norm = 0 := by
    simp [Vec3.norm, hx, hy, hz]
  rw [hn0] at h
  norm_num at h

theorem unit_sep_norm : Vec3.norm ⟨1, 0, 0⟩ = 1 := Vec3.norm_axis 1 (by norm_num)

theorem lennard_jones_nonzero_beyond_sigma_witness :
    (4.0e-10 : ℝ) < Vec3.norm ⟨1, 0, 0⟩ ∧ lennard_jones ⟨1, 0, 0⟩ ≠ Vec3.zero :=
  ⟨by rw [unit_sep_norm]; norm_num,
    lennard_jones_nonzero_beyond_sigma ⟨1, 0, 0⟩ (by rw [unit_sep_norm]; norm_num)⟩

theorem neg_unit_sep_norm : Vec3.norm ⟨-1, 0, 0⟩ = 1 := by
  simp only [Vec3.norm]
  rw [show (-1 : ℝ) ^ 2 + (0 : ℝ) ^ 2 + (0 : ℝ) ^ 2 = 1 by norm_num, Real.sqrt_one]

theorem lennard_jones_unit : lennard_jones ⟨1, 0, 0⟩ = ⟨lj_one, 0, 0⟩ := by
  simp only [lennard_jones, unit_sep_norm, lj_one, Vec3.smul_def, Vec3.mk.injEq]
  norm_num

theorem lennard_jones_neg_unit : lennard_jones ⟨-1, 0, 0⟩ = ⟨-lj_one, 0, 0⟩ := by
  simp only [lennard_jones, neg_unit_sep_norm, lj_one, Vec3.smul_def, Vec3.mk.injEq]
  norm_num

theorem Uforce_snapshot :
    Uforce.particles.map (fun p => p.pos) = [⟨2, 0, 0⟩, ⟨3, 0, 0⟩] := rfl

theorem force_stage_eval :
    (forceStage Uforce).particles.map Particle.acc = [⟨lj_one, 0, 0⟩, ⟨-lj_one, 0, 0⟩] := by
  rw [forceStage_eq]
  show (forceOffset (1, 1, 1) (Uforce.particles.map (fun p => p.pos))
      Uforce.particles).map Particle.acc = _
  rw [Uforce_snapshot]
  norm_num [Uforce, forceOffset, image_force, List.enum, List.enumFrom, Vec3.zero,
    lennard_jones_neg_unit, lennard_jones_unit]

theorem spec_accel_eval :
    spec_accel Uforce.boundary 0 ⟨2, 0, 0⟩ 1 (Uforce.particles.map (fun p => p.pos))
      = ⟨-(27 * lj_one), 0, 0⟩ := by
  rw [Uforce_snapshot]
  show spec_accel Vec3.zero 0 ⟨2, 0, 0⟩ 1 [⟨2, 0, 0⟩, ⟨3, 0, 0⟩] = _
  norm_num [spec_accel, NEIGHBOURS, List.enum, List.enumFrom, Vec3.zero,
    lennard_jones_unit, Vec3.mk.injEq]
  norm_num [lj_one]

/-- C1 (code bug): on a concrete two-particle system the acceleration written
by the force-evaluation stage of Universe::step differs from the value the
specification prescribes. The code computes each image position as the
component-wise product of the offset with the other particle's position
(never reading the boundary), and each of the 27 offset iterations
overwrites the acceleration, so the final acceleration reflects only the
last offset (1,1,1); the specification instead places the image at the
snapshot position plus the offset scaled by the boundary extent and sums the
contributions of all 27 offsets. -/
theorem force_stage_image_bug :
    (forceStage Uforce).particles.map Particle.acc = [⟨lj_one, 0, 0⟩, ⟨-lj_one, 0, 0⟩]
      ∧ spec_accel Uforce.boundary 0 ⟨2, 0, 0⟩ 1 (Uforce.particles.map (fun p => p.pos))
          = ⟨-(27 * lj_one), 0, 0⟩
      ∧ (⟨lj_one, 0, 0⟩ : Vec3) ≠ ⟨-(27 * lj_one), 0, 0⟩ := by
  refine ⟨force_stage_eval, spec_accel_eval, ?_⟩
  intro h
  have h1 : lj_one = -(27 * lj_one) := congrArg Vec3.x h
  norm_num [lj_one] at h1

/-- C7 (code bug): the picosecond and femtosecond conversions are swapped in
src/time.rs: from_picoseconds(1) stores 1e-15 seconds (the claim and the SI
prefix require 1e-12) and from_femtoseconds(1) stores 1e-12 (required:
1e-15); likewise the accessors picoseconds() and femtoseconds() multiply by
1e15 and 1e12 respectively instead of 1e12 and 1e15. The milli-, micro- and
nanosecond conversions use the correct SI powers. -/
theorem time_pico_femto_swapped :
    (Time.from_picoseconds 1).seconds = 1e-15
      ∧ (Time.from_femtoseconds 1).seconds = 1e-12
      ∧ (Time.from_seconds 1).picoseconds = 1e15
      ∧ (Time.from_seconds 1).femtoseconds = 1e12
      ∧ (Time.from_milliseconds 1).seconds = 1e-3
      ∧ (Time.from_microseconds 1).seconds = 1e-6
      ∧ (Time.from_nanoseconds 1).seconds = 1e-9
      ∧ ((1e-15 : ℝ) ≠ 1e-12) := by
  norm_num [Time.from_picoseconds, Time.from_femtoseconds, Time.from_seconds,
    Time.picoseconds, Time.femtoseconds, Time.from_milliseconds,
    Time.from_microseconds, Time.from_nanoseconds]

/-- C8 (code bug): a Kelvin argument parses to its value (300:K gives 300),
but a Celsius argument parses to value minus 273.15 rather than plus: 0:C
yields -273.15 Kelvin, below absolute zero, because the source computes
kelvin = value - offset with offset 273.15 for Celsius where the
Celsius-to-Kelvin conversion must add the offset. -/
theorem temperature_celsius_sign_bug :
    parse_temperature_value "300:K" = Except.ok 300
      ∧ parse_temperature_value "0:C" = Except.ok (-273.15)
      ∧ ((-273.15 : ℝ) ≠ 273.15) := by
  refine ⟨?_, ?_, by norm_num⟩
  · rw [parse_temperature_value, show split_once "300:K" ':' = some ("300", "K") from by decide]
    dsimp only
    rw [show parse_f64 "300" = some 300 from by
      rw [parse_f64, show parseDecimalParts "300" = some ⟨false, 300, 0, 0⟩ from by decide]
      norm_num]
    norm_num [Except.map, show ("K" : String) ≠ "" from by decide]
  · rw [parse_temperature_value, show split_once "0:C" ':' = some ("0", "C") from by decide]
    dsimp only
    rw [show parse_f64 "0" = some 0 from by
      rw [parse_f64, show parseDecimalParts "0" = some ⟨false, 0, 0, 0⟩ from by decide]
      norm_num]
    norm_num [Except.map, show ("C" : String) ≠ "" from by decide,
      show ("C" : String) ≠ "K" from by decide]

end Bibber
